import Mathlib

/-!
Shallow embedding of the `tradingview-mcp` server (files
`src/tradingview_mcp/server.py`, `core/utils/validators.py`,
`core/services/coinlist.py`) and proofs about its specified behaviour.

Modelling conventions:
* Python floats are modelled as rationals (`ℚ`); Python ints as `ℤ`/`ℕ`.
* A Python value that may be `None` is an `Option`.
* Python strings are Lean `String`s; the Python methods `strip`, `lower`,
  `upper` and `split('\n')` are re-implemented below over the character
  list (`pyStrip`, `pyLower`, `pyUpper`, `pySplitLines`) restricted to
  ASCII, which covers every string these functions are applied to.
* The external market-data client (`get_multiple_analysis`) is a function
  parameter `fetch : String → String → List String → Except String _`
  taking the screener category, the interval and the symbol batch and
  returning the provider's per-symbol snapshots (`none` entry = provider
  has no data for that key) or an error (a raised exception).
* The file system is a function parameter `fs : String → Option String`
  mapping a path to the file's content; `none` covers both a missing file
  and an I/O/decode error (the code treats the two identically).
* `compute_metrics` lives in `core/services/indicators.py`, which is not
  part of the sources; every theorem quantifies over an arbitrary
  `cm : RawInd → Option Metrics`, so the results hold for any
  implementation of that module honouring its interface.
* A Python function that can raise returns `Except String`.
-/

/-- ASCII whitespace, the characters `str.strip()` removes for the inputs
used here. -/
def pyIsSpace (c : Char) : Bool :=
  c = ' ' ∨ c = '\t' ∨ c = '\n' ∨ c = '\r' ∨ c = '\x0b' ∨ c = '\x0c'

/-- Python `str.strip()` (ASCII whitespace). -/
def pyStrip (s : String) : String :=
  String.mk (((s.data.dropWhile pyIsSpace).reverse.dropWhile pyIsSpace).reverse)

/-- Python `str.lower()` (ASCII). -/
def pyLower (s : String) : String :=
  String.mk (s.data.map Char.toLower)

/-- Python `str.upper()` (ASCII). -/
def pyUpper (s : String) : String :=
  String.mk (s.data.map Char.toUpper)

/-- Helper for `pySplitLines`: accumulates the current line (reversed). -/
def pySplitLinesAux : List Char → List Char → List String
  | [], acc => [String.mk acc.reverse]
  | c :: cs, acc =>
    if c = '\n' then String.mk acc.reverse :: pySplitLinesAux cs []
    else pySplitLinesAux cs (c :: acc)

/-- Python `content.split('\n')`. -/
def pySplitLines (s : String) : List String :=
  pySplitLinesAux s.data []

/-- Round half to even on `ℚ`, the rounding mode of Python's `round`. -/
def roundHalfEven (q : ℚ) : ℤ :=
  let f := ⌊q⌋
  let frac := q - f
  if frac < 1/2 then f
  else if 1/2 < frac then f + 1
  else if f % 2 = 0 then f else f + 1

/-- Python `round(x, nd)` idealised over `ℚ` (Python applies round half to
even to the binary float; on the rational model the decimal value itself is
rounded half to even). -/
def pyRound (nd : ℕ) (q : ℚ) : ℚ :=
  (roundHalfEven (q * (10 : ℚ) ^ nd) : ℚ) / (10 : ℚ) ^ nd

/-- Python `f"{x:.1f}"` idealised over `ℚ` (used by the candle-pattern
detail strings). -/
def pyFormatFixed1 (q : ℚ) : String :=
  let r := roundHalfEven (q * 10)
  let m := r.natAbs
  (if r < 0 then "-" else "") ++ toString (m / 10) ++ "." ++ toString (m % 10)

/-- `validators.ALLOWED_TIMEFRAMES`. -/
def ALLOWED_TIMEFRAMES : List String := ["5m", "15m", "1h", "4h", "1D", "1W", "1M"]

/-- `validators.EXCHANGE_SCREENER` (exchange → screener category). -/
def EXCHANGE_SCREENER : List (String × String) :=
  [("all", "crypto"), ("huobi", "crypto"), ("kucoin", "crypto"),
   ("coinbase", "crypto"), ("gateio", "crypto"), ("binance", "crypto"),
   ("bitfinex", "crypto"), ("bybit", "crypto"), ("okx", "crypto"),
   ("bist", "turkey"), ("nasdaq", "america")]

/-- The keys of `EXCHANGE_SCREENER` (membership test `exs in EXCHANGE_SCREENER`). -/
def exchangeKeys : List String := EXCHANGE_SCREENER.map Prod.fst

/-- `EXCHANGE_SCREENER.get(exchange, "crypto")`. -/
def screenerFor (exchange : String) : String :=
  ((EXCHANGE_SCREENER.lookup exchange).getD "crypto")

/-- `validators.sanitize_timeframe(tf, default)`. -/
def sanitize_timeframe (tf : String) (default : String := "5m") : String :=
  if tf = "" then default
  else
    let tfs := pyStrip tf
    if tfs ∈ ALLOWED_TIMEFRAMES then tfs else default

/-- `validators.sanitize_exchange(ex, default)`. -/
def sanitize_exchange (ex : String) (default : String := "kucoin") : String :=
  if ex = "" then default
  else
    let exs := pyLower (pyStrip ex)
    if exs ∈ exchangeKeys then exs else default

/-- `validators.COINLIST_DIR` (package-relative `coinlist` directory). -/
def COINLIST_DIR : String := "tradingview_mcp/coinlist"

/-- The unresolved fallback path prefix used by `load_symbols`
(`os.path.join(os.path.dirname(__file__), "..", "..", "coinlist")`). -/
def FALLBACK_COINLIST_DIR : String := "tradingview_mcp/core/services/../../coinlist"

/-- The four candidate paths `load_symbols` tries, in order. -/
def candidatePaths (exchange : String) : List String :=
  [COINLIST_DIR ++ "/" ++ exchange ++ ".txt",
   COINLIST_DIR ++ "/" ++ pyLower exchange ++ ".txt",
   FALLBACK_COINLIST_DIR ++ "/" ++ exchange ++ ".txt",
   FALLBACK_COINLIST_DIR ++ "/" ++ pyLower exchange ++ ".txt"]

/-- `[line.strip() for line in content.split('\n') if line.strip()]`. -/
def parseSymbols (content : String) : List String :=
  ((pySplitLines content).map pyStrip).filter (fun line => line ≠ "")

/-- The candidate loop of `coinlist.load_symbols`: first path whose file
exists, reads without error and parses to a non-empty symbol list wins. -/
def loadSymbolsGo (fs : String → Option String) : List String → List String
  | [] => []
  | p :: ps =>
    match fs p with
    | none => loadSymbolsGo fs ps
    | some content =>
      let symbols := parseSymbols content
      if symbols = [] then loadSymbolsGo fs ps else symbols

/-- `coinlist.load_symbols(exchange)` over an abstract file system `fs`. -/
def load_symbols (fs : String → Option String) (exchange : String) : List String :=
  loadSymbolsGo fs (candidatePaths exchange)

/-- `server._percent_change(o, c)`. -/
def percent_change (o c : Option ℚ) : Option ℚ :=
  match o, c with
  | none, _ => none
  | _, none => none
  | some ov, some cv => if ov = 0 then none else some ((cv - ov) / ov * 100)

/-- The raw indicator snapshot the provider returns for one symbol
(`value.indicators`); only the keys the server reads are modelled, each
possibly absent. -/
structure RawInd where
  open' : Option ℚ := none
  close : Option ℚ := none
  high : Option ℚ := none
  low : Option ℚ := none
  volume : Option ℚ := none
  SMA20 : Option ℚ := none
  BB_upper : Option ℚ := none
  BB_lower : Option ℚ := none
  EMA50 : Option ℚ := none
  EMA200 : Option ℚ := none
  RSI : Option ℚ := none
  volumeSMA20 : Option ℚ := none
deriving DecidableEq

/-- `server.IndicatorMap` (the indicator subset placed in result rows). -/
structure IndicatorMap where
  open' : Option ℚ := none
  close : Option ℚ := none
  SMA20 : Option ℚ := none
  BB_upper : Option ℚ := none
  BB_lower : Option ℚ := none
  EMA50 : Option ℚ := none
  RSI : Option ℚ := none
  volume : Option ℚ := none
deriving DecidableEq

/-- The record `compute_metrics` returns (its module is outside the given
sources; theorems quantify over the function producing it). -/
structure Metrics where
  price : Option ℚ := none
  open' : Option ℚ := none
  change : ℚ := 0
  bbw : Option ℚ := none
  rating : ℤ := 0
deriving DecidableEq

/-- `server.Row`. -/
structure Row where
  symbol : String
  changePercent : ℚ
  indicators : IndicatorMap
deriving DecidableEq

/-- The plain dict the tools convert a `Row` into before returning
(`{"symbol": ..., "changePercent": ..., "indicators": dict(...)}`). -/
structure OutRow where
  symbol : String
  changePercent : ℚ
  indicators : IndicatorMap
deriving DecidableEq

/-- The field-preserving dict conversion applied to each returned row. -/
def Row.toOut (r : Row) : OutRow :=
  { symbol := r.symbol, changePercent := r.changePercent, indicators := r.indicators }

/-- One entry of the provider's result mapping: key and snapshot
(`none` = the provider returned no data for that key). -/
abbrev Entry := String × Option RawInd

/-- The external `get_multiple_analysis` call: screener category, interval,
symbol batch → entries, or a raised exception. -/
abbrev Fetch := String → String → List String → Except String (List Entry)

/-- Stable insertion used by `isort` (the model of Python's stable sort). -/
def insertLe (le : α → α → Bool) (x : α) : List α → List α
  | [] => [x]
  | y :: ys => if le x y then x :: y :: ys else y :: insertLe le x ys

/-- Insertion sort with respect to a boolean relation; for the total and
transitive relations used here it computes the same ordering as Python's
stable `list.sort`. -/
def isort (le : α → α → Bool) : List α → List α
  | [] => []
  | x :: xs => insertLe le x (isort le xs)

/-- `rows.sort(key=lambda x: x["changePercent"], reverse=True)`. -/
def rowDesc (a b : Row) : Bool := b.changePercent ≤ a.changePercent

/-- `rows.sort(key=lambda x: x["changePercent"])`. -/
def rowAsc (a b : Row) : Bool := a.changePercent ≤ b.changePercent

/-- Helper for `chunks`: structural recursion on a fuel counter (each step
consumes at least one element, so fuel = initial length is enough; the
fuel-exhausted arm is unreachable under that use). -/
def chunksF (n : ℕ) : ℕ → List α → List (List α)
  | _, [] => []
  | 0, l => [l]
  | fuel + 1, x :: xs => (x :: xs.take (n - 1)) :: chunksF n fuel (xs.drop (n - 1))

/-- The batches `symbols[i:i+n]` for `i in range(0, len(symbols), n)`. -/
def chunks (n : ℕ) (l : List α) : List (List α) := chunksF n l.length l

/-- Per-entry body of the `_fetch_trending_analysis` loop: skip `None`
snapshots, skip when metrics are missing or `bbw` is `None`, apply the
optional rating filter, otherwise build the `Row`. -/
def processTrendingEntry (cm : RawInd → Option Metrics) (filterType : String)
    (ratingFilter : Option ℤ) (e : Entry) : Option Row :=
  match e.2 with
  | none => none
  | some ind =>
    match cm ind with
    | none => none
    | some m =>
      if m.bbw = none then none
      else if filterType = "rating" ∧ (∃ r, ratingFilter = some r ∧ m.rating ≠ r) then none
      else some
        { symbol := e.1, changePercent := m.change,
          indicators :=
            { open' := m.open', close := m.price, SMA20 := ind.SMA20,
              BB_upper := ind.BB_upper, BB_lower := ind.BB_lower,
              EMA50 := ind.EMA50, RSI := ind.RSI, volume := ind.volume } }

/-- The batched collection loop of `_fetch_trending_analysis`
(`all_coins` before sorting): batches of 200, a failing batch contributes
nothing. -/
def trendingCollect (fetch : Fetch) (cm : RawInd → Option Metrics)
    (screener interval filterType : String) (ratingFilter : Option ℤ)
    (symbols : List String) : List Row :=
  (chunks 200 symbols).flatMap fun batch =>
    match fetch screener interval batch with
    | .error _ => []
    | .ok entries => entries.filterMap (processTrendingEntry cm filterType ratingFilter)

/-- `server._fetch_trending_analysis` (the availability of the
`tradingview_ta` dependency is assumed; without it every call raises). -/
def fetch_trending_analysis (fs : String → Option String) (fetch : Fetch)
    (cm : RawInd → Option Metrics) (exchange : String) (timeframe : String)
    (filterType : String) (ratingFilter : Option ℤ) (limit : ℤ) :
    Except String (List Row) :=
  let symbols := load_symbols fs exchange
  if symbols = [] then .error ("No symbols found for exchange: " ++ exchange)
  else
    let allCoins := trendingCollect fetch cm (screenerFor exchange) timeframe
      filterType ratingFilter symbols
    .ok ((isort rowDesc allCoins).take limit.toNat)

/-- `server.top_gainers`. -/
def top_gainers (fs : String → Option String) (fetch : Fetch)
    (cm : RawInd → Option Metrics) (exchange timeframe : String) (limit : ℤ) :
    Except String (List OutRow) :=
  let ex := sanitize_exchange exchange "KUCOIN"
  let tf := sanitize_timeframe timeframe "15m"
  let lim := max 1 (min limit 50)
  match fetch_trending_analysis fs fetch cm ex tf "" none lim with
  | .error e => .error e
  | .ok rows => .ok (rows.map Row.toOut)

/-- `server.top_losers`: fetches like `top_gainers`, then re-sorts the
(already truncated) rows ascending and truncates again. -/
def top_losers (fs : String → Option String) (fetch : Fetch)
    (cm : RawInd → Option Metrics) (exchange timeframe : String) (limit : ℤ) :
    Except String (List OutRow) :=
  let ex := sanitize_exchange exchange "KUCOIN"
  let tf := sanitize_timeframe timeframe "15m"
  let lim := max 1 (min limit 50)
  match fetch_trending_analysis fs fetch cm ex tf "" none lim with
  | .error e => .error e
  | .ok rows => .ok (((isort rowAsc rows).take lim.toNat).map Row.toOut)

/-- `server.rating_filter`. -/
def rating_filter (fs : String → Option String) (fetch : Fetch)
    (cm : RawInd → Option Metrics) (exchange timeframe : String)
    (rating : ℤ) (limit : ℤ) : Except String (List OutRow) :=
  let ex := sanitize_exchange exchange "KUCOIN"
  let tf := sanitize_timeframe timeframe "5m"
  let rat := max (-3) (min 3 rating)
  let lim := max 1 (min limit 50)
  match fetch_trending_analysis fs fetch cm ex tf "rating" (some rat) lim with
  | .error e => .error e
  | .ok rows => .ok (rows.map Row.toOut)

/-- Per-entry body of the `_fetch_bollinger_analysis` loop (BBW filter plus
the required-indicator truthiness check on `EMA50` and `RSI`). -/
def processBollingerEntry (cm : RawInd → Option Metrics) (bbwFilter : Option ℚ)
    (e : Entry) : Option Row :=
  match e.2 with
  | none => none
  | some ind =>
    match cm ind with
    | none => none
    | some m =>
      match m.bbw with
      | none => none
      | some bbw =>
        if (∃ f, bbwFilter = some f ∧ (f ≤ bbw ∨ bbw ≤ 0)) then none
        else if ind.EMA50.getD 0 = 0 ∨ ind.RSI.getD 0 = 0 then none
        else some
          { symbol := e.1, changePercent := m.change,
            indicators :=
              { open' := m.open', close := m.price, SMA20 := ind.SMA20,
                BB_upper := ind.BB_upper, BB_lower := ind.BB_lower,
                EMA50 := ind.EMA50, RSI := ind.RSI, volume := ind.volume } }

/-- `server._fetch_bollinger_analysis` (single non-batched call on the
first `limit * 2` symbols; a failing call raises `Analysis failed`). -/
def fetch_bollinger_analysis (fs : String → Option String) (fetch : Fetch)
    (cm : RawInd → Option Metrics) (exchange timeframe : String) (limit : ℤ)
    (bbwFilter : Option ℚ) : Except String (List Row) :=
  let symbols := load_symbols fs exchange
  if symbols = [] then .error ("No symbols found for exchange: " ++ exchange)
  else
    let symbols2 := symbols.take (limit * 2).toNat
    match fetch (screenerFor exchange) timeframe symbols2 with
    | .error e => .error ("Analysis failed: " ++ e)
    | .ok entries =>
      let rows := entries.filterMap (processBollingerEntry cm bbwFilter)
      .ok ((isort rowDesc rows).take limit.toNat)

/-- `server.bollinger_scan`. -/
def bollinger_scan (fs : String → Option String) (fetch : Fetch)
    (cm : RawInd → Option Metrics) (exchange timeframe : String)
    (bbwThreshold : ℚ) (limit : ℤ) : Except String (List OutRow) :=
  let ex := sanitize_exchange exchange "KUCOIN"
  let tf := sanitize_timeframe timeframe "4h"
  let lim := max 1 (min limit 100)
  match fetch_bollinger_analysis fs fetch cm ex tf lim (some bbwThreshold) with
  | .error e => .error e
  | .ok rows => .ok (rows.map Row.toOut)

/-- Result of `coin_analysis`: either the error dict
`{"error", "symbol", "exchange", "timeframe"}` or the rich analysis dict,
whose derived fields (lines 539–585 of `server.py`) are determined by the
snapshot and metrics carried here. -/
inductive CoinResult where
  | errorDict (error symbol exchange timeframe : String)
  | success (fullSymbol exchange timeframe : String) (ind : RawInd) (m : Metrics)
deriving DecidableEq

/-- `server.coin_analysis`. -/
def coin_analysis (fetch : Fetch) (cm : RawInd → Option Metrics)
    (symbol exchange timeframe : String) : CoinResult :=
  let ex := sanitize_exchange exchange "KUCOIN"
  let tf := sanitize_timeframe timeframe "15m"
  let fullSymbol :=
    if symbol.data.contains ':' then pyUpper symbol
    else pyUpper ex ++ ":" ++ pyUpper symbol
  match fetch (screenerFor ex) tf [fullSymbol] with
  | .error e => .errorDict ("Analysis failed: " ++ e) symbol ex tf
  | .ok entries =>
    match entries.lookup fullSymbol with
    | none => .errorDict ("No data found for " ++ symbol ++ " on " ++ ex) symbol ex tf
    | some none => .errorDict ("No data found for " ++ symbol ++ " on " ++ ex) symbol ex tf
    | some (some ind) =>
      match cm ind with
      | none => .errorDict ("Could not compute metrics for " ++ symbol) symbol ex tf
      | some m => .success fullSymbol ex tf ind m

/-- The volume-ratio computation of `volume_breakout_scanner`
(lines 1232–1239): real 20-period volume average when positive, otherwise
the `current volume / 2` estimate. -/
def vbVolumeRatioQ (volume sma20Volume : ℚ) : ℚ :=
  if sma20Volume ≠ 0 ∧ 0 < sma20Volume then volume / sma20Volume
  else
    let avgVolumeEstimate := volume / 2
    if 0 < avgVolumeEstimate then volume / avgVolumeEstimate else 1

/-- The indicator subset stored in a volume-breakout record. -/
structure VBInd where
  close : ℚ
  RSI : ℚ
  BB_upper : ℚ
  BB_lower : ℚ
  volume : ℚ
deriving DecidableEq

/-- One record of the `volume_breakout_scanner` result list. -/
structure VBRow where
  symbol : String
  changePercent : ℚ
  volumeRatioQ : ℚ
  volume_strength : ℚ
  current_volume : ℚ
  breakout_type : String
  indicators : VBInd
deriving DecidableEq

/-- Per-symbol body of the `volume_breakout_scanner` loop. -/
def processVB (vm pcm : ℚ) (e : Entry) : Option VBRow :=
  match e.2 with
  | none => none
  | some ind =>
    let volume := ind.volume.getD 0
    let close := ind.close.getD 0
    let openPrice := ind.open'.getD 0
    let sma20Volume := ind.volumeSMA20.getD 0
    if (volume = 0 ∨ close = 0 ∨ openPrice = 0) ∨ volume ≤ 0 then none
    else
      let priceChange := if 0 < openPrice then (close - openPrice) / openPrice * 100 else 0
      let vratio := vbVolumeRatioQ volume sma20Volume
      if pcm ≤ |priceChange| ∧ vm ≤ vratio then
        some
          { symbol := e.1, changePercent := priceChange,
            volumeRatioQ := pyRound 2 vratio,
            volume_strength := pyRound 1 (min 10 vratio),
            current_volume := volume,
            breakout_type := if 0 < priceChange then "bullish" else "bearish",
            indicators :=
              { close := close, RSI := ind.RSI.getD 50,
                BB_upper := ind.BB_upper.getD 0, BB_lower := ind.BB_lower.getD 0,
                volume := volume } }
      else none

/-- The batched collection loop of `volume_breakout_scanner`
(`volume_breakouts` before sorting): at most 500 symbols, batches of 100,
a failing batch contributes nothing. -/
def vbCollect (fetch : Fetch) (screener interval : String) (vm pcm : ℚ)
    (symbols : List String) : List VBRow :=
  (chunks 100 (symbols.take 500)).flatMap fun batch =>
    match fetch screener interval batch with
    | .error _ => []
    | .ok entries => entries.filterMap (processVB vm pcm)

/-- Lexicographic `≤` on pairs of rationals (Python tuple comparison). -/
def pairQQLe (a b : ℚ × ℚ) : Bool :=
  a.1 < b.1 ∨ (a.1 = b.1 ∧ a.2 ≤ b.2)

/-- `volume_breakouts.sort(key=lambda x: (x["volume_strength"], abs(x["changePercent"])), reverse=True)`. -/
def vbDesc (a b : VBRow) : Bool :=
  pairQQLe (b.volume_strength, |b.changePercent|) (a.volume_strength, |a.changePercent|)

/-- `server.volume_breakout_scanner`. -/
def volume_breakout_scanner (fs : String → Option String) (fetch : Fetch)
    (exchange timeframe : String) (volumeMultiplier priceChangeMin : ℚ)
    (limit : ℤ) : List VBRow :=
  let ex := sanitize_exchange exchange "KUCOIN"
  let tf := sanitize_timeframe timeframe "15m"
  let vm := max (3/2) (min 10 volumeMultiplier)
  let pcm := max 1 (min 20 priceChangeMin)
  let lim := max 1 (min limit 50)
  let symbols := load_symbols fs ex
  if symbols = [] then []
  else
    let breakouts := vbCollect fetch (screenerFor ex) tf vm pcm symbols
    (isort vbDesc breakouts).take lim.toNat

/-- One record of the `smart_volume_scanner` result: the breakout record
plus the `trading_recommendation` key added to it. -/
structure SVRow where
  coin : VBRow
  trading_recommendation : String
deriving DecidableEq

/-- Per-coin RSI filter and recommendation of `smart_volume_scanner`. -/
def processSV (rsiRange : String) (coin : VBRow) : Option SVRow :=
  let rsi := coin.indicators.RSI
  if rsiRange = "oversold" ∧ 30 ≤ rsi then none
  else if rsiRange = "overbought" ∧ rsi ≤ 70 then none
  else if rsiRange = "neutral" ∧ (rsi ≤ 30 ∨ 70 ≤ rsi) then none
  else
    let recommendation :=
      if 0 < coin.changePercent ∧ 2 ≤ coin.volumeRatioQ then
        if rsi < 70 then " STRONG BUY" else " OVERBOUGHT - CAUTION"
      else if coin.changePercent < 0 ∧ 2 ≤ coin.volumeRatioQ then
        if 30 < rsi then " STRONG SELL" else " OVERSOLD - OPPORTUNITY?"
      else ""
    some { coin := coin, trading_recommendation := recommendation }

/-- `server.smart_volume_scanner`. -/
def smart_volume_scanner (fs : String → Option String) (fetch : Fetch)
    (exchange : String) (minVolumeRatioArg minPriceChange : ℚ)
    (rsiRange : String) (limit : ℤ) : List SVRow :=
  let ex := sanitize_exchange exchange "KUCOIN"
  let vr := max (6/5) (min 10 minVolumeRatioArg)
  let pc := max (1/2) (min 20 minPriceChange)
  let lim := max 1 (min limit 30)
  let volumeBreakouts := volume_breakout_scanner fs fetch ex "15m" vr pc (lim * 2)
  if volumeBreakouts = [] then []
  else ((volumeBreakouts.filterMap (processSV rsiRange)).take lim.toNat)

/-- Lexicographic `≤` on a natural/rational pair (Python tuple comparison
for the pattern-sort keys). -/
def pairNatQLe (a b : ℕ × ℚ) : Bool :=
  a.1 < b.1 ∨ (a.1 = b.1 ∧ a.2 ≤ b.2)

/-- The OHLC snapshot subset in a consecutive-candles record. -/
structure PriceLevels where
  open' : ℚ
  high : ℚ
  low : ℚ
  close : ℚ
deriving DecidableEq

/-- The momentum flags in a consecutive-candles record. -/
structure MomentumSignals where
  above_sma20 : Bool
  above_ema50 : Bool
  strong_volume : Bool
deriving DecidableEq

/-- One record of the `consecutive_candles_scan` data list. -/
structure CCRow where
  symbol : String
  price : ℚ
  current_change : ℚ
  bodyRatioQ : ℚ
  pattern_strength : ℕ
  volume : ℚ
  bollinger_rating : ℤ
  rsi : ℚ
  price_levels : PriceLevels
  momentum_signals : MomentumSignals
deriving DecidableEq

/-- Per-symbol body of the `consecutive_candles_scan` loop: truthiness
check on OHLC, five boolean conditions summed into a strength score,
detected at score `≥ 3`. -/
def processCCEntry (cm : RawInd → Option Metrics) (patternType : String)
    (minGrowth : ℚ) (e : Entry) : Option CCRow :=
  match e.2 with
  | none => none
  | some ind =>
    let openPrice := ind.open'.getD 0
    let closePrice := ind.close.getD 0
    let highPrice := ind.high.getD 0
    let lowPrice := ind.low.getD 0
    let volume := ind.volume.getD 0
    if openPrice = 0 ∨ closePrice = 0 ∨ highPrice = 0 ∨ lowPrice = 0 then none
    else
      let currentChange := (closePrice - openPrice) / openPrice * 100
      let candleBody := |closePrice - openPrice|
      let candleRange := highPrice - lowPrice
      let bodyToRange := if 0 < candleRange then candleBody / candleRange else 0
      let rsi := ind.RSI.getD 50
      let sma20 := ind.SMA20.getD closePrice
      let ema50 := ind.EMA50.getD closePrice
      let priceAboveSma := sma20 < closePrice
      let priceAboveEma := ema50 < closePrice
      let conditions : List Bool :=
        if patternType = "bullish" then
          [minGrowth < currentChange, (3/5 : ℚ) < bodyToRange, priceAboveSma,
           45 < rsi ∧ rsi < 80, 1000 < volume]
        else if patternType = "bearish" then
          [currentChange < -minGrowth, (3/5 : ℚ) < bodyToRange, ¬priceAboveSma,
           rsi < 55 ∧ 20 < rsi, 1000 < volume]
        else []
      let patternStrength := conditions.count true
      let patternDetected :=
        (patternType = "bullish" ∨ patternType = "bearish") ∧ 3 ≤ patternStrength
      if patternDetected then
        some
          { symbol := e.1, price := pyRound 6 closePrice,
            current_change := pyRound 3 currentChange,
            bodyRatioQ := pyRound 3 bodyToRange,
            pattern_strength := patternStrength, volume := volume,
            bollinger_rating := ((cm ind).map Metrics.rating).getD 0,
            rsi := pyRound 2 rsi,
            price_levels :=
              { open' := pyRound 6 openPrice, high := pyRound 6 highPrice,
                low := pyRound 6 lowPrice, close := pyRound 6 closePrice },
            momentum_signals :=
              { above_sma20 := priceAboveSma, above_ema50 := priceAboveEma,
                strong_volume := 5000 < volume } }
      else none

/-- Bullish sort of `consecutive_candles_scan`:
`key=(pattern_strength, current_change), reverse=True`. -/
def ccDescBull (a b : CCRow) : Bool :=
  pairNatQLe (b.pattern_strength, b.current_change) (a.pattern_strength, a.current_change)

/-- Bearish sort of `consecutive_candles_scan`:
`key=(pattern_strength, -current_change), reverse=True`. -/
def ccDescBear (a b : CCRow) : Bool :=
  pairNatQLe (b.pattern_strength, -b.current_change) (a.pattern_strength, -a.current_change)

/-- Result of `consecutive_candles_scan`: the error dict or the result
dict with its `data` list. -/
inductive CCSResult where
  | errorDict (error exchange timeframe : String)
  | okDict (exchange timeframe patternType : String) (candleCount : ℤ)
      (minGrowth : ℚ) (totalFound : ℕ) (data : List CCRow)
deriving DecidableEq

/-- Length of the `data` list of a `consecutive_candles_scan` result
(0 for the error dict, which carries no data). -/
def CCSResult.dataLength : CCSResult → ℕ
  | .errorDict _ _ _ => 0
  | .okDict _ _ _ _ _ _ data => data.length

/-- `server.consecutive_candles_scan`. -/
def consecutive_candles_scan (fs : String → Option String) (fetch : Fetch)
    (cm : RawInd → Option Metrics) (exchange timeframe patternType : String)
    (candleCount : ℤ) (minGrowth : ℚ) (limit : ℤ) : CCSResult :=
  let ex := sanitize_exchange exchange "KUCOIN"
  let tf := sanitize_timeframe timeframe "15m"
  let cc := max 2 (min 5 candleCount)
  let mg := max (1/2) (min 20 minGrowth)
  let lim := max 1 (min 50 limit)
  let symbols := load_symbols fs ex
  if symbols = [] then
    .errorDict ("No symbols found for exchange: " ++ ex) ex tf
  else
    let symbols2 := symbols.take (min (lim * 3) 200).toNat
    match fetch (screenerFor ex) tf symbols2 with
    | .error e => .errorDict ("Pattern analysis failed: " ++ e) ex tf
    | .ok entries =>
      let patternCoins := entries.filterMap (processCCEntry cm patternType mg)
      let sortedCoins :=
        if patternType = "bullish" then isort ccDescBull patternCoins
        else isort ccDescBear patternCoins
      .okDict ex tf patternType cc mg patternCoins.length (sortedCoins.take lim.toNat)

/-- The full record `_calculate_candle_pattern_score` returns when the
OHLC truthiness check passes (`none` models the early
`{"detected": False, "score": 0}` return). -/
structure PatternScore where
  detected : Bool
  score : ℕ
  details : List String
  price : ℚ
  total_change : ℚ
  bodyRatioQ : ℚ
  volume : ℚ
deriving DecidableEq

/-- `server._calculate_candle_pattern_score` (the `pattern_length`
argument is accepted but unused, as in the source). -/
def calculate_candle_pattern_score (ind : RawInd) (patternLength : ℤ)
    (minIncrease : ℚ) : Option PatternScore :=
  let _ := patternLength
  let openPrice := ind.open'.getD 0
  let closePrice := ind.close.getD 0
  let highPrice := ind.high.getD 0
  let lowPrice := ind.low.getD 0
  let volume := ind.volume.getD 0
  let rsi := ind.RSI.getD 50
  if openPrice = 0 ∨ closePrice = 0 ∨ highPrice = 0 ∨ lowPrice = 0 then none
  else
    let candleBody := |closePrice - openPrice|
    let candleRange := highPrice - lowPrice
    let bodyRatioRaw := if 0 < candleRange then candleBody / candleRange else 0
    let priceChange := (closePrice - openPrice) / openPrice * 100
    let part1 : ℕ × List String :=
      if (7/10 : ℚ) < bodyRatioRaw then (2, ["Strong candle body"])
      else if (1/2 : ℚ) < bodyRatioRaw then (1, ["Moderate candle body"])
      else (0, [])
    let part2 : ℕ × List String :=
      if minIncrease ≤ |priceChange| then
        (2, ["Strong momentum (" ++ pyFormatFixed1 priceChange ++ "%)"])
      else if minIncrease / 2 ≤ |priceChange| then
        (1, ["Moderate momentum (" ++ pyFormatFixed1 priceChange ++ "%)"])
      else (0, [])
    let part3 : ℕ × List String :=
      if 5000 < volume then (1, ["Good volume"]) else (0, [])
    let part4 : ℕ × List String :=
      if (0 < priceChange ∧ 50 < rsi ∧ rsi < 80) ∨
         (priceChange < 0 ∧ 20 < rsi ∧ rsi < 50) then
        (1, ["RSI momentum aligned"])
      else (0, [])
    let ema50 := ind.EMA50.getD closePrice
    let part5 : ℕ × List String :=
      if (0 < priceChange ∧ ema50 < closePrice) ∨
         (priceChange < 0 ∧ closePrice < ema50) then
        (1, ["Trend alignment"])
      else (0, [])
    let score := part1.1 + part2.1 + part3.1 + part4.1 + part5.1
    let details := part1.2 ++ part2.2 ++ part3.2 ++ part4.2 ++ part5.2
    some
      { detected := 3 ≤ score, score := score, details := details,
        price := pyRound 6 closePrice, total_change := pyRound 3 priceChange,
        bodyRatioQ := pyRound 3 bodyRatioRaw, volume := volume }

/-- One row of the screener dataframe consumed by
`_fetch_multi_timeframe_patterns` (the selected columns only; `none` =
missing value). -/
structure ScreenRow where
  ticker : String
  open' : Option ℚ := none
  close : Option ℚ := none
  high : Option ℚ := none
  low : Option ℚ := none
  volume : Option ℚ := none
  RSI : Option ℚ := none
deriving DecidableEq

/-- One record of the multi-timeframe pattern result list. -/
structure MultiPatternRec where
  symbol : String
  pattern_score : ℕ
  price : ℚ
  change : ℚ
  bodyRatioQ : ℚ
  volume : ℚ
  rsi : ℚ
  details : List String
deriving DecidableEq

/-- Per-row body of the `_fetch_multi_timeframe_patterns` loop. -/
def processScreenRow (patternLength : ℤ) (minIncrease : ℚ) (r : ScreenRow) :
    Option MultiPatternRec :=
  let volumeVal := r.volume.getD 0
  let rsiVal := r.RSI.getD 50
  if r.open'.getD 0 = 0 ∨ r.close.getD 0 = 0 ∨ r.high.getD 0 = 0 ∨
      r.low.getD 0 = 0 then none
  else
    match calculate_candle_pattern_score
        { open' := r.open', close := r.close, high := r.high, low := r.low,
          volume := some volumeVal, RSI := some rsiVal }
        patternLength minIncrease with
    | none => none
    | some ps =>
      if ps.detected then
        some
          { symbol := r.ticker, pattern_score := ps.score, price := ps.price,
            change := ps.total_change, bodyRatioQ := ps.bodyRatioQ,
            volume := volumeVal, rsi := pyRound 2 rsiVal, details := ps.details }
      else none

/-- `sorted(results, key=lambda x: x['pattern_score'], reverse=True)`. -/
def multiDesc (a b : MultiPatternRec) : Bool :=
  b.pattern_score ≤ a.pattern_score

/-- `server._fetch_multi_timeframe_patterns` over the abstract screener
result (`Except` error = any raised exception, caught and turned into `[]`;
`ok none` = `df is None or df.empty`). -/
def fetch_multi_timeframe_patterns (screen : Except String (Option (List ScreenRow)))
    (patternLength : ℤ) (minIncrease : ℚ) : List MultiPatternRec :=
  match screen with
  | .error _ => []
  | .ok none => []
  | .ok (some rows) =>
    isort multiDesc (rows.filterMap (processScreenRow patternLength minIncrease))

/-- The `technical_strength` sub-dict of an advanced-pattern record. -/
structure TechStrength where
  rsi : ℚ
  momentum : String
  volume_trend : String
deriving DecidableEq

/-- One record of the advanced single-timeframe pattern result list. -/
structure ACPRec where
  symbol : String
  pattern_score : ℕ
  pattern_details : List String
  current_price : ℚ
  total_change : ℚ
  volume : ℚ
  bollinger_rating : ℤ
  technical_strength : TechStrength
deriving DecidableEq

/-- Per-symbol body of the `advanced_candle_pattern` fallback loop. -/
def processACPEntry (cm : RawInd → Option Metrics) (patternLength : ℤ)
    (minSizeIncrease : ℚ) (e : Entry) : Option ACPRec :=
  match e.2 with
  | none => none
  | some ind =>
    match calculate_candle_pattern_score ind patternLength minSizeIncrease with
    | none => none
    | some ps =>
      if ps.detected then
        some
          { symbol := e.1, pattern_score := ps.score, pattern_details := ps.details,
            current_price := ps.price, total_change := ps.total_change,
            volume := ind.volume.getD 0,
            bollinger_rating := ((cm ind).map Metrics.rating).getD 0,
            technical_strength :=
              { rsi := pyRound 2 (ind.RSI.getD 50),
                momentum := if minSizeIncrease < |ps.total_change| then "Strong" else "Moderate",
                volume_trend := if 10000 < ind.volume.getD 0 then "High" else "Low" } }
      else none

/-- `pattern_results.sort(key=lambda x: (x['pattern_score'], abs(x['total_change'])), reverse=True)`. -/
def acpDesc (a b : ACPRec) : Bool :=
  pairNatQLe (b.pattern_score, |b.total_change|) (a.pattern_score, |a.total_change|)

/-- Result of `advanced_candle_pattern`: the two error dicts or one of the
two result dicts (multi-timeframe method or single-timeframe fallback). -/
inductive ACPResult where
  | errNoSymbols (error exchange : String)
  | errFailed (error exchange baseTimeframe : String)
  | okMulti (exchange baseTimeframe : String) (patternLength : ℤ)
      (minSizeIncrease : ℚ) (method : String) (totalFound : ℕ)
      (data : List MultiPatternRec)
  | okSingle (exchange baseTimeframe : String) (patternLength : ℤ)
      (minSizeIncrease : ℚ) (method : String) (totalFound : ℕ)
      (data : List ACPRec)
deriving DecidableEq

/-- Length of the `data` list of an `advanced_candle_pattern` result
(0 for the error dicts, which carry no data). -/
def ACPResult.dataLength : ACPResult → ℕ
  | .errNoSymbols _ _ => 0
  | .errFailed _ _ _ => 0
  | .okMulti _ _ _ _ _ _ data => data.length
  | .okSingle _ _ _ _ _ _ data => data.length

/-- `server.advanced_candle_pattern`; `screenerAvailable` models
`TRADINGVIEW_SCREENER_AVAILABLE` and `screen` the screener query result
(`_fetch_multi_timeframe_patterns` catches its own exceptions, so the
multi-timeframe branch never falls through once taken). -/
def advanced_candle_pattern (fs : String → Option String)
    (screenerAvailable : Bool) (screen : Except String (Option (List ScreenRow)))
    (fetch : Fetch) (cm : RawInd → Option Metrics)
    (exchange baseTimeframe : String) (patternLength : ℤ)
    (minSizeIncrease : ℚ) (limit : ℤ) : ACPResult :=
  let ex := sanitize_exchange exchange "KUCOIN"
  let btf := sanitize_timeframe baseTimeframe "15m"
  let pl := max 2 (min 4 patternLength)
  let msi := max 5 (min 50 minSizeIncrease)
  let lim := max 1 (min 30 limit)
  let symbols := load_symbols fs ex
  if symbols = [] then .errNoSymbols ("No symbols found for exchange: " ++ ex) ex
  else
    let symbols2 := symbols.take (min (lim * 2) 100).toNat
    if screenerAvailable then
      let results := fetch_multi_timeframe_patterns screen pl msi
      .okMulti ex btf pl msi "multi-timeframe" results.length (results.take lim.toNat)
    else
      match fetch (screenerFor ex) btf symbols2 with
      | .error e => .errFailed ("Advanced pattern analysis failed: " ++ e) ex btf
      | .ok entries =>
        let patternResults := isort acpDesc (entries.filterMap
          (processACPEntry cm pl msi))
        .okSingle ex btf pl msi "enhanced-single-timeframe"
          patternResults.length (patternResults.take lim.toNat)

/-- Length of the `ok` payload of a possibly-raising tool (a raised
exception returns no list at all). -/
def okLength (e : Except String (List α)) : ℕ :=
  match e with
  | .error _ => 0
  | .ok l => l.length

theorem insertLe_perm (le : α → α → Bool) (x : α) (l : List α) :
    (insertLe le x l).Perm (x :: l) := by
  induction l with
  | nil => simp [insertLe]
  | cons y ys ih =>
    rw [insertLe]
    split
    · exact List.Perm.refl _
    · exact (ih.cons y).trans (List.Perm.swap x y ys)

theorem isort_perm (le : α → α → Bool) (l : List α) : (isort le l).Perm l := by
  induction l with
  | nil => simp [isort]
  | cons x xs ih => exact (insertLe_perm le x (isort le xs)).trans (ih.cons x)

theorem isort_length (le : α → α → Bool) (l : List α) :
    (isort le l).length = l.length :=
  (isort_perm le l).length_eq

theorem mem_insertLe (le : α → α → Bool) (x z : α) (l : List α) :
    z ∈ insertLe le x l ↔ z = x ∨ z ∈ l := by
  rw [(insertLe_perm le x l).mem_iff]
  simp

theorem insertLe_pairwise (le : α → α → Bool)
    (htrans : ∀ a b c, le a b = true → le b c = true → le a c = true)
    (htot : ∀ a b, le a b = true ∨ le b a = true) (x : α) (l : List α)
    (h : l.Pairwise (fun a b => le a b = true)) :
    (insertLe le x l).Pairwise (fun a b => le a b = true) := by
  induction l with
  | nil => simp [insertLe]
  | cons y ys ih =>
    rw [List.pairwise_cons] at h
    rw [insertLe]
    split
    · rename_i hxy
      refine List.pairwise_cons.mpr ⟨?_, List.pairwise_cons.mpr h⟩
      intro z hz
      rcases List.mem_cons.mp hz with rfl | hz
      · exact hxy
      · exact htrans x y z hxy (h.1 z hz)
    · rename_i hxy
      refine List.pairwise_cons.mpr ⟨?_, ih h.2⟩
      intro z hz
      rcases (mem_insertLe le x z ys).mp hz with rfl | hz
      · rcases htot y z with hyz | hzy
        · exact hyz
        · exact absurd hzy hxy
      · exact h.1 z hz

theorem isort_pairwise (le : α → α → Bool)
    (htrans : ∀ a b c, le a b = true → le b c = true → le a c = true)
    (htot : ∀ a b, le a b = true ∨ le b a = true) (l : List α) :
    (isort le l).Pairwise (fun a b => le a b = true) := by
  induction l with
  | nil => simp [isort]
  | cons x xs ih => exact insertLe_pairwise le htrans htot x (isort le xs) ih

theorem insertLe_of_forall_not (le : α → α → Bool) (x : α) (l : List α)
    (h : ∀ y ∈ l, le x y = false) : insertLe le x l = l ++ [x] := by
  induction l with
  | nil => simp [insertLe]
  | cons y ys ih =>
    rw [insertLe, if_neg (by simp [h y (by simp)]), ih fun z hz => h z (by simp [hz])]
    simp

theorem isort_of_pairwise_not (le : α → α → Bool) (l : List α)
    (h : l.Pairwise (fun a b => le a b = false)) : isort le l = l.reverse := by
  induction l with
  | nil => simp [isort]
  | cons x xs ih =>
    rw [List.pairwise_cons] at h
    rw [isort, ih h.2, insertLe_of_forall_not le x xs.reverse
      (fun y hy => h.1 y (List.mem_reverse.mp hy))]
    simp

theorem chunksF_flatten (n : ℕ) (fuel : ℕ) (l : List α) :
    (chunksF n fuel l).flatten = l := by
  induction fuel generalizing l with
  | zero => cases l <;> simp [chunksF]
  | succ fuel ih =>
    cases l with
    | nil => simp [chunksF]
    | cons x xs =>
      rw [chunksF, List.flatten_cons, ih (xs.drop (n - 1))]
      simp [List.take_append_drop]

theorem chunks_flatten (n : ℕ) (l : List α) : (chunks n l).flatten = l :=
  chunksF_flatten n l.length l

theorem processVB_symbol (vm pcm : ℚ) (e : Entry) (r : VBRow)
    (h : processVB vm pcm e = some r) : r.symbol = e.1 := by
  unfold processVB at h
  rcases e with ⟨key, ind?⟩
  cases ind? with
  | none => exact absurd h (by simp)
  | some ind =>
    dsimp only at h
    repeat' split at h
    all_goals
      first
      | (rw [Option.some_inj] at h; subst h; rfl)
      | exact absurd h (by simp)

/-- C7: `_percent_change` yields `None` whenever the open is zero or absent
or the close is absent — never an infinity and never an exception — and
otherwise computes `(close - open) / open * 100`. -/
theorem claim_C7_percent_change_guard :
    ∀ o c : Option ℚ,
      ((o = none ∨ o = some 0 ∨ c = none) → percent_change o c = none) ∧
      (∀ ov cv : ℚ, o = some ov → ov ≠ 0 → c = some cv →
        percent_change o c = some ((cv - ov) / ov * 100)) := by
  intro o c
  constructor
  · rintro (rfl | rfl | rfl)
    · cases c <;> rfl
    · cases c <;> simp [percent_change]
    · cases o <;> simp [percent_change]
  · rintro ov cv rfl hov rfl
    simp [percent_change, hov]

/-- C7 witness: the guard and the formula evaluated at concrete snapshots. -/
theorem claim_C7_witness :
    percent_change (some 0) (some 7) = none ∧ percent_change none (some 7) = none ∧
    percent_change (some 4) none = none ∧ percent_change (some 4) (some 5) = some 25 := by
  refine ⟨(claim_C7_percent_change_guard (some 0) (some 7)).1 (Or.inr (Or.inl rfl)),
    (claim_C7_percent_change_guard none (some 7)).1 (Or.inl rfl),
    (claim_C7_percent_change_guard (some 4) none).1 (Or.inr (Or.inr rfl)), ?_⟩
  rw [(claim_C7_percent_change_guard (some 4) (some 5)).2 4 5 rfl (by norm_num) rfl]
  norm_num

/-- C8: `sanitize_timeframe` returns the trimmed value when that is a
member of the fixed timeframe set, the caller-specified default otherwise,
and the default on empty input. -/
theorem claim_C8_sanitize_timeframe :
    ∀ tf d : String,
      (pyStrip tf ∈ ALLOWED_TIMEFRAMES → sanitize_timeframe tf d = pyStrip tf) ∧
      (pyStrip tf ∉ ALLOWED_TIMEFRAMES → sanitize_timeframe tf d = d) ∧
      sanitize_timeframe "" d = d := by
  intro tf d
  refine ⟨?_, ?_, by simp [sanitize_timeframe]⟩
  · intro hmem
    by_cases htf : tf = ""
    · subst htf
      exact absurd hmem (by decide)
    · simp [sanitize_timeframe, htf, hmem]
  · intro hmem
    by_cases htf : tf = ""
    · subst htf
      simp [sanitize_timeframe]
    · simp [sanitize_timeframe, htf, hmem]

/-- C8 witness: a whitespace-wrapped member, a non-member and the empty
string. -/
theorem claim_C8_witness :
    sanitize_timeframe " 1h " "5m" = "1h" ∧ sanitize_timeframe "2h" "5m" = "5m" ∧
    sanitize_timeframe "" "4h" = "4h" := by
  refine ⟨?_, (claim_C8_sanitize_timeframe "2h" "5m").2.1 (by decide),
    (claim_C8_sanitize_timeframe "" "4h").2.2⟩
  rw [(claim_C8_sanitize_timeframe " 1h " "5m").1 (by decide)]
  decide

/-- C9: when no candidate file yields a non-empty symbol list,
`load_symbols` returns the empty list (and, being total, raises nothing). -/
theorem claim_C9_load_symbols_empty :
    ∀ (fs : String → Option String) (exchange : String),
      (∀ p ∈ candidatePaths exchange, ∀ content, fs p = some content →
        parseSymbols content = []) →
      load_symbols fs exchange = [] := by
  intro fs exchange h
  unfold load_symbols
  have aux : ∀ ps : List String,
      (∀ p ∈ ps, ∀ content, fs p = some content → parseSymbols content = []) →
      loadSymbolsGo fs ps = [] := by
    intro ps
    induction ps with
    | nil => intro _; rfl
    | cons p rest ih =>
      intro hp
      cases hfp : fs p with
      | none =>
        simp only [loadSymbolsGo, hfp]
        exact ih fun q hq => hp q (by simp [hq])
      | some content =>
        have hc := hp p (by simp) content hfp
        simp only [loadSymbolsGo, hfp, hc, if_pos]
        exact ih fun q hq => hp q (by simp [hq])
  exact aux _ h

/-- C9 witness: an exchange with no file at all. -/
theorem claim_C9_witness : load_symbols (fun _ => none) "kraken" = [] :=
  claim_C9_load_symbols_empty (fun _ => none) "kraken"
    (fun _ _ content hc => absurd hc (by simp))

/-- C3 counterexample: the tools call `sanitize_exchange(exchange, "KUCOIN")`,
and on any input outside the table the fallback value actually used is
`"KUCOIN"`, which is not a member of the exchange-to-screener table (only
its lower-case form is). -/
theorem claim_C3_counterexample :
    sanitize_exchange "FOO" "KUCOIN" = "KUCOIN" ∧ "KUCOIN" ∉ exchangeKeys := by
  decide

/-- C3 (amended): the sanitizers always return either an allow-list member
or the caller-specified default verbatim; the result is an allow-list
member whenever the default itself is one (the tools' timeframe defaults
are members, but their exchange default `"KUCOIN"` is not). -/
theorem claim_C3_sanitizers_allowlist_or_default :
    (∀ ex d, sanitize_exchange ex d ∈ exchangeKeys ∨ sanitize_exchange ex d = d) ∧
    (∀ tf d, sanitize_timeframe tf d ∈ ALLOWED_TIMEFRAMES ∨ sanitize_timeframe tf d = d) ∧
    (∀ ex d, d ∈ exchangeKeys → sanitize_exchange ex d ∈ exchangeKeys) ∧
    (∀ tf d, d ∈ ALLOWED_TIMEFRAMES → sanitize_timeframe tf d ∈ ALLOWED_TIMEFRAMES) := by
  have hex : ∀ ex d, sanitize_exchange ex d ∈ exchangeKeys ∨ sanitize_exchange ex d = d := by
    intro ex d
    unfold sanitize_exchange
    split
    · exact Or.inr rfl
    · dsimp only
      split
      · rename_i hmem
        exact Or.inl hmem
      · exact Or.inr rfl
  have htf : ∀ tf d, sanitize_timeframe tf d ∈ ALLOWED_TIMEFRAMES ∨
      sanitize_timeframe tf d = d := by
    intro tf d
    unfold sanitize_timeframe
    split
    · exact Or.inr rfl
    · dsimp only
      split
      · rename_i hmem
        exact Or.inl hmem
      · exact Or.inr rfl
  refine ⟨hex, htf, fun ex d hd => ?_, fun tf d hd => ?_⟩
  · rcases hex ex d with hm | he
    · exact hm
    · rw [he]
      exact hd
  · rcases htf tf d with hm | he
    · exact hm
    · rw [he]
      exact hd

/-- C3 witness for the amended claim: with allow-list defaults the results
stay in the allow-lists. -/
theorem claim_C3_witness :
    sanitize_exchange "FOO" "kucoin" ∈ exchangeKeys ∧
    sanitize_timeframe "2h" "5m" ∈ ALLOWED_TIMEFRAMES :=
  ⟨claim_C3_sanitizers_allowlist_or_default.2.2.1 "FOO" "kucoin" (by decide),
   claim_C3_sanitizers_allowlist_or_default.2.2.2 "2h" "5m" (by decide)⟩

/-- C10: when a snapshot has positive volume and an absent or non-positive
`volume.SMA20`, the fallback computes a volume ratio of exactly 2, so the
volume condition of `volume_breakout_scanner` holds iff the clamped
`volume_multiplier` is at most 2, which it is at the default 2.0. -/
theorem claim_C10_vb_fallback :
    ∀ (volume : ℚ) (sma : Option ℚ) (m : ℚ),
      0 < volume → sma.getD 0 ≤ 0 →
      vbVolumeRatioQ volume (sma.getD 0) = 2 ∧
      (max (3/2) (min 10 m) ≤ vbVolumeRatioQ volume (sma.getD 0) ↔
        max (3/2) (min 10 m) ≤ 2) ∧
      max (3/2 : ℚ) (min 10 2) = 2 := by
  intro v sma m hv hs
  have h2 : vbVolumeRatioQ v (sma.getD 0) = 2 := by
    unfold vbVolumeRatioQ
    rw [if_neg fun hc => absurd hc.2 (not_lt.mpr hs), if_pos (by positivity)]
    field_simp
  exact ⟨h2, by rw [h2], by norm_num⟩

/-- C10 witness: volume 8, `volume.SMA20` absent, multiplier 2. -/
theorem claim_C10_witness :
    vbVolumeRatioQ 8 ((none : Option ℚ).getD 0) = 2 ∧
    (max (3/2) (min 10 2) ≤ vbVolumeRatioQ 8 ((none : Option ℚ).getD 0) ↔
      max (3/2 : ℚ) (min 10 2) ≤ 2) ∧ max (3/2 : ℚ) (min 10 2) = 2 :=
  claim_C10_vb_fallback 8 none 2 (by norm_num) (by norm_num)

/-- C4: with the repository's `kucoin.txt` symbol file holding
`BTCUSDT\nETHUSDT\n\n` (the file is stored under its lower-case name, and
no upper-case variant exists), both `load_symbols("kucoin")` and
`load_symbols("KUCOIN")` yield `["BTCUSDT", "ETHUSDT"]`: the blank lines
are dropped and the upper-case call is served by the lower-cased
candidate path. -/
theorem claim_C4_load_symbols_kucoin :
    ∀ fs : String → Option String,
      fs "tradingview_mcp/coinlist/KUCOIN.txt" = none →
      fs "tradingview_mcp/coinlist/kucoin.txt" = some "BTCUSDT\nETHUSDT\n\n" →
      load_symbols fs "KUCOIN" = ["BTCUSDT", "ETHUSDT"] ∧
      load_symbols fs "kucoin" = ["BTCUSDT", "ETHUSDT"] := by
  intro fs h1 h2
  have hparse : parseSymbols "BTCUSDT\nETHUSDT\n\n" = ["BTCUSDT", "ETHUSDT"] := by decide
  have e1 : candidatePaths "KUCOIN" =
      ["tradingview_mcp/coinlist/KUCOIN.txt",
       "tradingview_mcp/coinlist/kucoin.txt",
       "tradingview_mcp/core/services/../../coinlist/KUCOIN.txt",
       "tradingview_mcp/core/services/../../coinlist/kucoin.txt"] := by decide
  have e2 : candidatePaths "kucoin" =
      ["tradingview_mcp/coinlist/kucoin.txt",
       "tradingview_mcp/coinlist/kucoin.txt",
       "tradingview_mcp/core/services/../../coinlist/kucoin.txt",
       "tradingview_mcp/core/services/../../coinlist/kucoin.txt"] := by decide
  constructor
  · rw [load_symbols, e1]
    simp only [loadSymbolsGo, h1, h2, hparse]
    rw [if_neg (by decide)]
  · rw [load_symbols, e2]
    simp only [loadSymbolsGo, h2, hparse]
    rw [if_neg (by decide)]

/-- C4 witness: a concrete file system holding only the lower-case file. -/
theorem claim_C4_witness :
    load_symbols
      (fun p => if p = "tradingview_mcp/coinlist/kucoin.txt"
        then some "BTCUSDT\nETHUSDT\n\n" else none) "KUCOIN" =
      ["BTCUSDT", "ETHUSDT"] ∧
    load_symbols
      (fun p => if p = "tradingview_mcp/coinlist/kucoin.txt"
        then some "BTCUSDT\nETHUSDT\n\n" else none) "kucoin" =
      ["BTCUSDT", "ETHUSDT"] :=
  claim_C4_load_symbols_kucoin _ (by decide) (by decide)

/-- C6: when the provider's response carries no entry (or a null entry)
for `BINANCE:BTCUSDT`, `coin_analysis("BTCUSDT", exchange="BINANCE")`
returns the error dict with message `"No data found for BTCUSDT on
binance"` (the sanitized, lower-cased exchange) together with the symbol,
exchange and timeframe fields, and raises nothing (the model is total). -/
theorem claim_C6_coin_analysis_no_data :
    ∀ (fetch : Fetch) (cm : RawInd → Option Metrics) (timeframe : String)
      (entries : List Entry),
      fetch "crypto" (sanitize_timeframe timeframe "15m") ["BINANCE:BTCUSDT"] =
        .ok entries →
      (entries.lookup "BINANCE:BTCUSDT" = none ∨
        entries.lookup "BINANCE:BTCUSDT" = some none) →
      coin_analysis fetch cm "BTCUSDT" "BINANCE" timeframe =
        .errorDict "No data found for BTCUSDT on binance" "BTCUSDT" "binance"
          (sanitize_timeframe timeframe "15m") := by
  intro fetch cm tf entries hfetch hlook
  have hex : sanitize_exchange "BINANCE" "KUCOIN" = "binance" := by decide
  have hfull : (if ("BTCUSDT" : String).data.contains ':' then pyUpper "BTCUSDT"
      else pyUpper "binance" ++ ":" ++ pyUpper "BTCUSDT") = "BINANCE:BTCUSDT" := by decide
  have hscr : screenerFor "binance" = "crypto" := by decide
  have hmsg : ("No data found for " ++ "BTCUSDT" ++ " on " ++ "binance" : String) =
      "No data found for BTCUSDT on binance" := by decide
  unfold coin_analysis
  rw [hex]
  dsimp only
  rw [hfull, hscr, hfetch]
  dsimp only
  rcases hlook with hl | hl <;> rw [hl, hmsg]

/-- C6 witness: a provider response with no entries at all. -/
theorem claim_C6_witness :
    coin_analysis (fun _ _ _ => .ok []) (fun _ => none) "BTCUSDT" "BINANCE" "15m" =
      .errorDict "No data found for BTCUSDT on binance" "BTCUSDT" "binance" "15m" := by
  have h := claim_C6_coin_analysis_no_data (fun _ _ _ => .ok []) (fun _ => none)
    "15m" [] rfl (Or.inl rfl)
  rw [h]
  decide

theorem fetch_trending_okLength (fs : String → Option String) (fetch : Fetch)
    (cm : RawInd → Option Metrics) (ex tf ft : String) (rf : Option ℤ) (lim : ℤ) :
    okLength (fetch_trending_analysis fs fetch cm ex tf ft rf lim) ≤ lim.toNat := by
  unfold fetch_trending_analysis
  by_cases hs : load_symbols fs ex = []
  · simp [hs, okLength]
  · simp [hs, okLength, List.length_take]

theorem okLength_mapOut (res : Except String (List Row)) :
    okLength (match res with
      | .error e => (Except.error e : Except String (List OutRow))
      | .ok rows => .ok (rows.map Row.toOut)) = okLength res := by
  cases res <;> simp [okLength]

theorem top_gainers_okLength (fs : String → Option String) (fetch : Fetch)
    (cm : RawInd → Option Metrics) (exchange timeframe : String) (limit : ℤ) :
    okLength (top_gainers fs fetch cm exchange timeframe limit) ≤
      (max 1 (min limit 50)).toNat := by
  unfold top_gainers
  dsimp only
  have h := fetch_trending_okLength fs fetch cm (sanitize_exchange exchange "KUCOIN")
    (sanitize_timeframe timeframe "15m") "" none (max 1 (min limit 50))
  cases hres : fetch_trending_analysis fs fetch cm (sanitize_exchange exchange "KUCOIN")
      (sanitize_timeframe timeframe "15m") "" none (max 1 (min limit 50)) with
  | error e => simp [okLength]
  | ok rows =>
    rw [hres] at h
    simpa [okLength] using h

theorem top_losers_okLength (fs : String → Option String) (fetch : Fetch)
    (cm : RawInd → Option Metrics) (exchange timeframe : String) (limit : ℤ) :
    okLength (top_losers fs fetch cm exchange timeframe limit) ≤
      (max 1 (min limit 50)).toNat := by
  unfold top_losers
  dsimp only
  cases hres : fetch_trending_analysis fs fetch cm (sanitize_exchange exchange "KUCOIN")
      (sanitize_timeframe timeframe "15m") "" none (max 1 (min limit 50)) with
  | error e => simp [okLength]
  | ok rows => simp [okLength, List.length_take]

theorem fetch_bollinger_okLength (fs : String → Option String) (fetch : Fetch)
    (cm : RawInd → Option Metrics) (ex tf : String) (lim : ℤ) (bbw : Option ℚ) :
    okLength (fetch_bollinger_analysis fs fetch cm ex tf lim bbw) ≤ lim.toNat := by
  unfold fetch_bollinger_analysis
  by_cases hs : load_symbols fs ex = []
  · simp [hs, okLength]
  · rw [if_neg hs]
    dsimp only
    cases fetch (screenerFor ex) tf ((load_symbols fs ex).take (lim * 2).toNat) with
    | error e => simp [okLength]
    | ok entries => simp [okLength, List.length_take]

theorem bollinger_scan_okLength (fs : String → Option String) (fetch : Fetch)
    (cm : RawInd → Option Metrics) (exchange timeframe : String)
    (bbwThreshold : ℚ) (limit : ℤ) :
    okLength (bollinger_scan fs fetch cm exchange timeframe bbwThreshold limit) ≤
      (max 1 (min limit 100)).toNat := by
  unfold bollinger_scan
  dsimp only
  have h := fetch_bollinger_okLength fs fetch cm (sanitize_exchange exchange "KUCOIN")
    (sanitize_timeframe timeframe "4h") (max 1 (min limit 100)) (some bbwThreshold)
  cases hres : fetch_bollinger_analysis fs fetch cm (sanitize_exchange exchange "KUCOIN")
      (sanitize_timeframe timeframe "4h") (max 1 (min limit 100)) (some bbwThreshold) with
  | error e => simp [okLength]
  | ok rows =>
    rw [hres] at h
    simpa [okLength] using h

theorem rating_filter_okLength (fs : String → Option String) (fetch : Fetch)
    (cm : RawInd → Option Metrics) (exchange timeframe : String)
    (rating limit : ℤ) :
    okLength (rating_filter fs fetch cm exchange timeframe rating limit) ≤
      (max 1 (min limit 50)).toNat := by
  unfold rating_filter
  dsimp only
  have h := fetch_trending_okLength fs fetch cm (sanitize_exchange exchange "KUCOIN")
    (sanitize_timeframe timeframe "5m") "rating" (some (max (-3) (min 3 rating)))
    (max 1 (min limit 50))
  cases hres : fetch_trending_analysis fs fetch cm (sanitize_exchange exchange "KUCOIN")
      (sanitize_timeframe timeframe "5m") "rating" (some (max (-3) (min 3 rating)))
      (max 1 (min limit 50)) with
  | error e => simp [okLength]
  | ok rows =>
    rw [hres] at h
    simpa [okLength] using h

theorem volume_breakout_scanner_length (fs : String → Option String) (fetch : Fetch)
    (exchange timeframe : String) (vm pcm : ℚ) (limit : ℤ) :
    (volume_breakout_scanner fs fetch exchange timeframe vm pcm limit).length ≤
      (max 1 (min limit 50)).toNat := by
  unfold volume_breakout_scanner
  dsimp only
  split
  · simp
  · simp [List.length_take]

theorem smart_volume_scanner_length (fs : String → Option String) (fetch : Fetch)
    (exchange : String) (vr pc : ℚ) (rsiRange : String) (limit : ℤ) :
    (smart_volume_scanner fs fetch exchange vr pc rsiRange limit).length ≤
      (max 1 (min limit 30)).toNat := by
  unfold smart_volume_scanner
  dsimp only
  split
  · simp
  · simp [List.length_take]

theorem consecutive_candles_scan_dataLength (fs : String → Option String)
    (fetch : Fetch) (cm : RawInd → Option Metrics)
    (exchange timeframe patternType : String) (candleCount : ℤ)
    (minGrowth : ℚ) (limit : ℤ) :
    (consecutive_candles_scan fs fetch cm exchange timeframe patternType
      candleCount minGrowth limit).dataLength ≤ (max 1 (min 50 limit)).toNat := by
  unfold consecutive_candles_scan
  dsimp only
  split
  · simp [CCSResult.dataLength]
  · split
    · simp [CCSResult.dataLength]
    · simp [CCSResult.dataLength, List.length_take]

theorem advanced_candle_pattern_dataLength (fs : String → Option String)
    (screenerAvailable : Bool) (screen : Except String (Option (List ScreenRow)))
    (fetch : Fetch) (cm : RawInd → Option Metrics)
    (exchange baseTimeframe : String) (patternLength : ℤ)
    (minSizeIncrease : ℚ) (limit : ℤ) :
    (advanced_candle_pattern fs screenerAvailable screen fetch cm exchange
      baseTimeframe patternLength minSizeIncrease limit).dataLength ≤
      (max 1 (min 30 limit)).toNat := by
  unfold advanced_candle_pattern
  dsimp only
  split
  · simp [ACPResult.dataLength]
  · split
    · simp [ACPResult.dataLength, List.length_take]
    · split
      · simp [ACPResult.dataLength]
      · simp [ACPResult.dataLength, List.length_take]

/-- C1: every tool clamps its limit into its documented range
(`top_gainers`/`top_losers`/`rating_filter` and `volume_breakout_scanner`
into [1,50], `bollinger_scan` into [1,100], `smart_volume_scanner` and
`advanced_candle_pattern` into [1,30], `consecutive_candles_scan` into
[1,50]) and, for every input, the returned result list is never longer
than the clamped limit. -/
theorem claim_C1_result_length_le_clamped_limit :
    (∀ limit : ℤ,
      (1 ≤ max 1 (min limit 50) ∧ max 1 (min limit 50) ≤ 50) ∧
      (1 ≤ max 1 (min limit 100) ∧ max 1 (min limit 100) ≤ 100) ∧
      (1 ≤ max 1 (min limit 30) ∧ max 1 (min limit 30) ≤ 30) ∧
      (1 ≤ max 1 (min 50 limit) ∧ max 1 (min 50 limit) ≤ 50) ∧
      (1 ≤ max 1 (min 30 limit) ∧ max 1 (min 30 limit) ≤ 30)) ∧
    (∀ fs fetch cm exchange timeframe (limit : ℤ),
      okLength (top_gainers fs fetch cm exchange timeframe limit) ≤
        (max 1 (min limit 50)).toNat) ∧
    (∀ fs fetch cm exchange timeframe (limit : ℤ),
      okLength (top_losers fs fetch cm exchange timeframe limit) ≤
        (max 1 (min limit 50)).toNat) ∧
    (∀ fs fetch cm exchange timeframe bbwThreshold (limit : ℤ),
      okLength (bollinger_scan fs fetch cm exchange timeframe bbwThreshold limit) ≤
        (max 1 (min limit 100)).toNat) ∧
    (∀ fs fetch cm exchange timeframe rating (limit : ℤ),
      okLength (rating_filter fs fetch cm exchange timeframe rating limit) ≤
        (max 1 (min limit 50)).toNat) ∧
    (∀ fs fetch exchange timeframe vm pcm (limit : ℤ),
      (volume_breakout_scanner fs fetch exchange timeframe vm pcm limit).length ≤
        (max 1 (min limit 50)).toNat) ∧
    (∀ fs fetch exchange vr pc rsiRange (limit : ℤ),
      (smart_volume_scanner fs fetch exchange vr pc rsiRange limit).length ≤
        (max 1 (min limit 30)).toNat) ∧
    (∀ fs fetch cm exchange timeframe patternType candleCount minGrowth (limit : ℤ),
      (consecutive_candles_scan fs fetch cm exchange timeframe patternType
        candleCount minGrowth limit).dataLength ≤ (max 1 (min 50 limit)).toNat) ∧
    (∀ fs screenerAvailable screen fetch cm exchange baseTimeframe patternLength
        minSizeIncrease (limit : ℤ),
      (advanced_candle_pattern fs screenerAvailable screen fetch cm exchange
        baseTimeframe patternLength minSizeIncrease limit).dataLength ≤
        (max 1 (min 30 limit)).toNat) := by
  refine ⟨fun limit => ?_, top_gainers_okLength, top_losers_okLength,
    bollinger_scan_okLength, rating_filter_okLength, volume_breakout_scanner_length,
    smart_volume_scanner_length, consecutive_candles_scan_dataLength,
    advanced_candle_pattern_dataLength⟩
  omega

/-- C2: on identical fetched data whose change-percent values are pairwise
distinct, and for the same exchange, timeframe and limit arguments,
`top_losers` returns exactly the reverse of the `top_gainers` ranking
(`top_losers` re-sorts the already fetched-and-truncated gainers rows
ascending). -/
theorem claim_C2_top_losers_reverse_of_top_gainers :
    ∀ (fs : String → Option String) (fetch : Fetch) (cm : RawInd → Option Metrics)
      (exchange timeframe : String) (limit : ℤ),
      ((trendingCollect fetch cm (screenerFor (sanitize_exchange exchange "KUCOIN"))
        (sanitize_timeframe timeframe "15m") "" none
        (load_symbols fs (sanitize_exchange exchange "KUCOIN"))).map
          Row.changePercent).Nodup →
      top_losers fs fetch cm exchange timeframe limit =
        Except.map List.reverse (top_gainers fs fetch cm exchange timeframe limit) := by
  intro fs fetch cm exchange timeframe limit hnd
  unfold top_losers top_gainers fetch_trending_analysis
  dsimp only
  set ex := sanitize_exchange exchange "KUCOIN" with hex
  set tf := sanitize_timeframe timeframe "15m" with htf
  set lim := max 1 (min limit 50) with hlim
  set coins := trendingCollect fetch cm (screenerFor ex) tf "" none (load_symbols fs ex)
    with hcoins
  by_cases hs : load_symbols fs ex = []
  · rw [if_pos hs]
    simp [Except.map]
  · rw [if_neg hs]
    dsimp only
    set S := isort rowDesc coins with hS
    set G := S.take lim.toNat with hG
    have htransD : ∀ a b c : Row, rowDesc a b = true → rowDesc b c = true →
        rowDesc a c = true := by
      intro a b c hab hbc
      simp only [rowDesc, decide_eq_true_eq] at *
      exact le_trans hbc hab
    have htotD : ∀ a b : Row, rowDesc a b = true ∨ rowDesc b a = true := by
      intro a b
      simp only [rowDesc, decide_eq_true_eq]
      exact le_total _ _
    have hsorted : S.Pairwise (fun a b => rowDesc a b = true) :=
      isort_pairwise rowDesc htransD htotD coins
    have hndS : (S.map Row.changePercent).Nodup :=
      (((isort_perm rowDesc coins).map Row.changePercent).symm).nodup hnd
    have hpairNe : S.Pairwise (fun a b => a.changePercent ≠ b.changePercent) :=
      List.pairwise_map.mp hndS
    have hstrictS : S.Pairwise (fun a b => b.changePercent < a.changePercent) := by
      refine (hsorted.and hpairNe).imp ?_
      intro a b h
      have h1 : b.changePercent ≤ a.changePercent := by
        have := h.1
        simpa [rowDesc, decide_eq_true_eq] using this
      exact lt_of_le_of_ne h1 h.2.symm
    have hstrictG : G.Pairwise (fun a b => b.changePercent < a.changePercent) :=
      hstrictS.sublist (List.take_sublist _ _)
    have hrevG : isort rowAsc G = G.reverse := by
      apply isort_of_pairwise_not
      refine hstrictG.imp ?_
      intro a b h
      simp only [rowAsc, decide_eq_false_iff_not]
      exact not_le.mpr h
    have hlenG : G.length ≤ lim.toNat := by
      simp [hG, List.length_take]
    have htake : (isort rowAsc G).take lim.toNat = G.reverse := by
      rw [hrevG]
      exact List.take_of_length_le (by simpa using hlenG)
    rw [htake]
    simp [Except.map, List.map_reverse]

/-- C2 witness: a two-symbol exchange with distinct change percents 1 and 2. -/
theorem claim_C2_witness :
    ((trendingCollect
      (fun _ _ _ => .ok [("AAA", some ({ open' := some 1 } : RawInd)),
        ("BBB", some ({ open' := some 2 } : RawInd))])
      (fun ind => some ({ change := ind.open'.getD 0, bbw := some 0 } : Metrics))
      (screenerFor (sanitize_exchange "kucoin" "KUCOIN"))
      (sanitize_timeframe "15m" "15m") "" none
      (load_symbols (fun p => if p = "tradingview_mcp/coinlist/kucoin.txt"
        then some "AAA\nBBB" else none) (sanitize_exchange "kucoin" "KUCOIN"))).map
        Row.changePercent).Nodup ∧
    top_losers
        (fun p => if p = "tradingview_mcp/coinlist/kucoin.txt"
          then some "AAA\nBBB" else none)
        (fun _ _ _ => .ok [("AAA", some ({ open' := some 1 } : RawInd)),
          ("BBB", some ({ open' := some 2 } : RawInd))])
        (fun ind => some ({ change := ind.open'.getD 0, bbw := some 0 } : Metrics))
        "kucoin" "15m" 25 =
      Except.map List.reverse (top_gainers
        (fun p => if p = "tradingview_mcp/coinlist/kucoin.txt"
          then some "AAA\nBBB" else none)
        (fun _ _ _ => .ok [("AAA", some ({ open' := some 1 } : RawInd)),
          ("BBB", some ({ open' := some 2 } : RawInd))])
        (fun ind => some ({ change := ind.open'.getD 0, bbw := some 0 } : Metrics))
        "kucoin" "15m" 25) :=
  ⟨by decide,
   claim_C2_top_losers_reverse_of_top_gainers _ _ _ "kucoin" "15m" 25 (by decide)⟩

/-- C5: in the batched `volume_breakout_scanner` collection, a batch whose
external call raises contributes no entries at all — the combined result
holds no record whose symbol lies in the failed batch — while every record
processed from any successful batch is present; each batch is consulted
exactly once, in order, with no retry (the model calls `fetch` once per
batch by construction). -/
theorem claim_C5_failed_batch_isolated :
    ∀ (fetch : Fetch) (screener interval : String) (vm pcm : ℚ)
      (symbols : List String) (i : ℕ)
      (hi : i < (chunks 100 (symbols.take 500)).length),
      symbols.Nodup →
      (∃ msg, fetch screener interval
        ((chunks 100 (symbols.take 500)).get ⟨i, hi⟩) = .error msg) →
      (∀ batch ∈ chunks 100 (symbols.take 500), ∀ es,
        fetch screener interval batch = .ok es → ∀ e ∈ es, e.1 ∈ batch) →
      (∀ r ∈ vbCollect fetch screener interval vm pcm symbols,
        r.symbol ∉ (chunks 100 (symbols.take 500)).get ⟨i, hi⟩) ∧
      (∀ (j : ℕ) (hj : j < (chunks 100 (symbols.take 500)).length)
        (es : List Entry),
        fetch screener interval ((chunks 100 (symbols.take 500)).get ⟨j, hj⟩) =
          .ok es →
        ∀ r ∈ es.filterMap (processVB vm pcm),
          r ∈ vbCollect fetch screener interval vm pcm symbols) := by
  intro fetch screener interval vm pcm symbols i hi hnd hfail hkeys
  obtain ⟨msg, hfail⟩ := hfail
  have hndT : (symbols.take 500).Nodup := hnd.sublist (List.take_sublist _ _)
  have hndF : (chunks 100 (symbols.take 500)).flatten.Nodup := by
    rw [chunks_flatten]
    exact hndT
  have hdisj : (chunks 100 (symbols.take 500)).Pairwise List.Disjoint :=
    (List.nodup_flatten.mp hndF).2
  constructor
  · intro r hr hri
    unfold vbCollect at hr
    obtain ⟨batch, hbmem, hrb⟩ := List.mem_flatMap.mp hr
    cases hfb : fetch screener interval batch with
    | error e =>
      rw [hfb] at hrb
      exact absurd hrb (by simp)
    | ok es =>
      rw [hfb] at hrb
      obtain ⟨e, hes, hpe⟩ := List.mem_filterMap.mp hrb
      have hsym : r.symbol ∈ batch := by
        rw [processVB_symbol vm pcm e r hpe]
        exact hkeys batch hbmem es hfb e hes
      obtain ⟨⟨j, hj⟩, hget⟩ := List.mem_iff_get.mp hbmem
      rcases Nat.lt_trichotomy j i with hji | hji | hij
      · exact (List.pairwise_iff_get.mp hdisj ⟨j, hj⟩ ⟨i, hi⟩ hji)
          (hget ▸ hsym) hri
      · subst hji
        rw [← hget] at hfb
        have hfail' : fetch screener interval
            ((chunks 100 (symbols.take 500)).get ⟨j, hj⟩) = .error msg := hfail
        rw [hfail'] at hfb
        exact Except.noConfusion hfb
      · exact (List.pairwise_iff_get.mp hdisj ⟨i, hi⟩ ⟨j, hj⟩ hij)
          hri (hget ▸ hsym)
  · intro j hj es hok r hr
    unfold vbCollect
    refine List.mem_flatMap.mpr ⟨(chunks 100 (symbols.take 500)).get ⟨j, hj⟩,
      List.get_mem _ j hj, ?_⟩
    rw [hok]
    exact hr

/-- C5 witness: 101 symbols split into a 100-symbol batch and a second
batch whose call raises; nothing from the failed batch appears, and the
first batch's processed entries all appear. -/
theorem claim_C5_witness :
    (∀ r ∈ vbCollect
        (fun _ _ b => if b.length = 1 then (.error "boom" : Except String (List Entry))
          else .ok [("Z", some ({ open' := some 1, close := some 2, volume := some 10 } : RawInd))])
        "crypto" "15m" 2 3
        ("Z" :: (List.range 100).map
          (fun k => String.mk ['S', Char.ofNat (48 + k / 10), Char.ofNat (48 + k % 10)])),
      r.symbol ∉ (chunks 100 (("Z" :: (List.range 100).map
          (fun k => String.mk ['S', Char.ofNat (48 + k / 10), Char.ofNat (48 + k % 10)])).take
          500)).get ⟨1, by decide⟩) ∧
    (∀ r ∈ ([("Z", some ({ open' := some 1, close := some 2, volume := some 10 } : RawInd))] :
        List Entry).filterMap (processVB 2 3),
      r ∈ vbCollect
        (fun _ _ b => if b.length = 1 then (.error "boom" : Except String (List Entry))
          else .ok [("Z", some ({ open' := some 1, close := some 2, volume := some 10 } : RawInd))])
        "crypto" "15m" 2 3
        ("Z" :: (List.range 100).map
          (fun k => String.mk ['S', Char.ofNat (48 + k / 10), Char.ofNat (48 + k % 10)]))) := by
  have hall : ∀ b ∈ chunks 100 (("Z" :: (List.range 100).map
      (fun k => String.mk ['S', Char.ofNat (48 + k / 10), Char.ofNat (48 + k % 10)])).take 500),
      "Z" ∈ b ∨ b.length = 1 := by decide
  have hkeys : ∀ batch ∈ chunks 100 (("Z" :: (List.range 100).map
      (fun k => String.mk ['S', Char.ofNat (48 + k / 10), Char.ofNat (48 + k % 10)])).take 500),
      ∀ es : List Entry,
      (fun (_ _ : String) (b : List String) =>
        if b.length = 1 then (.error "boom" : Except String (List Entry))
          else .ok [("Z", some ({ open' := some 1, close := some 2, volume := some 10 } : RawInd))])
        "crypto" "15m" batch = .ok es →
      ∀ e ∈ es, e.1 ∈ batch := by
    intro batch hb es hok e he
    dsimp only at hok
    by_cases hlen : batch.length = 1
    · rw [if_pos hlen] at hok
      exact Except.noConfusion hok
    · rw [if_neg hlen] at hok
      rw [Except.ok.injEq] at hok
      subst hok
      rcases List.mem_singleton.mp he with rfl
      rcases hall batch hb with hz | h1
      · exact hz
      · exact absurd h1 hlen
  have H := claim_C5_failed_batch_isolated
    (fun _ _ b => if b.length = 1 then (.error "boom" : Except String (List Entry))
      else .ok [("Z", some ({ open' := some 1, close := some 2, volume := some 10 } : RawInd))])
    "crypto" "15m" 2 3
    ("Z" :: (List.range 100).map
      (fun k => String.mk ['S', Char.ofNat (48 + k / 10), Char.ofNat (48 + k % 10)]))
    1 (by decide) (by decide) ⟨"boom", rfl⟩ hkeys
  exact ⟨H.1, H.2 0 (by decide)
    [("Z", some ({ open' := some 1, close := some 2, volume := some 10 } : RawInd))] rfl⟩
